import Mathlib

/-!
Verification of the Scrollify frame-generation pipeline (scrollify_core.py).

The Python source is shallowly embedded: Python ints become ℤ, Python floats
become exact rationals ℚ (the source's float expressions are modelled by the
same expressions over ℚ; every concrete input used below is chosen so that
IEEE-754 evaluation and exact rational evaluation agree), Python lists become
Lean lists.  A frame is identified by the scroll offset it was cropped at
(ScrollifyGenerator._crop_safe depends only on the offset once the geometry is
fixed), so the frame sequence is modelled as the list of scroll offsets.

The two scroll loops in ScrollifyGenerator.generate_frames are while loops
whose counters move by at least one pixel per iteration when the configured
scroll speed is positive (the validated-configuration invariant of the
source); they are embedded as fuel-based structural recursions whose fuel is
an upper bound on the iteration count, with the loop guard additionally
requiring a positive speed (for speed ≤ 0 the Python loop does not
terminate, so no total model can reflect it).
-/

set_option maxRecDepth 20000

/-- Mirror of the Python dataclass ScrollifyConfig, with the source's default
field values. -/
structure ScrollifyConfig where
  source_image : String
  aspect_ratio : String := "16:9"
  output_width : ℤ := 800
  output_height : Option ℤ := none
  scroll_speed : ℤ := 8
  framerate : ℤ := 24
  scroll_mode : String := "down"
  pause_duration : ℚ := 2
  output_format : String := "GIF"
  output_path : String := "output_scroll.gif"
  quality_factor : ℚ := 4/5
  add_watermark : Bool := false
  watermark_text : String := "Created with Scrollify"
deriving DecidableEq

/-- Python's int() applied to a (real-valued) quantity: truncation toward
zero.  The denominator of a Lean rational is positive, so Int.tdiv on the
numerator and denominator truncates toward zero exactly as Python does. -/
def pyInt (q : ℚ) : ℤ := Int.tdiv q.num (q.den : ℤ)

/-- Digit-string to integer, the digits part of Python int(str). -/
def parseDigits (l : List Char) : Option ℤ :=
  if !l.isEmpty && l.all (·.isDigit) then
    some (l.foldl (fun a c => 10 * a + ((c.toNat - 48 : ℕ) : ℤ)) 0)
  else none

/-- Python int(str): optional surrounding whitespace, optional sign, then a
nonempty run of digits; anything else raises ValueError (here: none). -/
def pyParseInt (s : List Char) : Option ℤ :=
  match ((s.dropWhile (·.isWhitespace)).reverse.dropWhile
      (·.isWhitespace)).reverse with
  | '-' :: rest => (parseDigits rest).map (fun n => -n)
  | '+' :: rest => parseDigits rest
  | l => parseDigits l

/-- Python str.split on a colon separator: splits at every occurrence, keeps
empty parts, and yields one (empty) part for the empty string. -/
def splitColon : List Char → List (List Char)
  | [] => [[]]
  | c :: rest =>
    if c = ':' then [] :: splitColon rest
    else
      match splitColon rest with
      | [] => [[c]]
      | p :: ps => (c :: p) :: ps

/-- Model of the statement w_ratio, h_ratio = map(int, s.split(a_colon)):
succeeds exactly when the split yields two parts and both parse as Python
ints; any failure (wrong arity or ValueError) is the except-branch. -/
def parseRatioToken (s : String) : Option (ℤ × ℤ) :=
  match (splitColon s.toList).map pyParseInt with
  | [some w, some h] => some (w, h)
  | _ => none

/-- Python truthiness of the optional output_height field: None and 0 are
falsy, every other int is truthy. -/
def pyTruthyHeight : Option ℤ → Bool
  | none => false
  | some n => n != 0

/-- Embedding of ScrollifyGenerator.calculate_dimensions.  sourceW and
sourceH are the dimensions of the loaded source image.  The w_ratio = 0 case
models the ZeroDivisionError inside the try block, which the bare except
turns into the 16:9 default, exactly like a parse failure. -/
def calculate_dimensions (cfg : ScrollifyConfig) (sourceW sourceH : ℤ) : ℤ :=
  if cfg.aspect_ratio = "source" then
    pyInt ((cfg.output_width : ℚ) * ((sourceH : ℚ) / (sourceW : ℚ)))
  else if cfg.aspect_ratio = "custom" ∧ pyTruthyHeight cfg.output_height = true then
    cfg.output_height.getD 0
  else
    match parseRatioToken cfg.aspect_ratio with
    | some (w, h) =>
        if w = 0 then pyInt ((cfg.output_width : ℚ) * 9 / 16)
        else pyInt ((cfg.output_width : ℚ) * (h : ℚ) / (w : ℚ))
    | none => pyInt ((cfg.output_width : ℚ) * 9 / 16)

/-- Embedding of ScrollifyGenerator.preprocess_image.  Input: the source
image dimensions and the window height from calculate_dimensions.  Output:
((scaled width, scaled height), effective output width, reconciled window
height).  The source mutates config.output_width and self.window_height in
place; here the mutated values are returned. -/
def preprocess (cfg : ScrollifyConfig) (sourceW sourceH windowH : ℤ) :
    (ℤ × ℤ) × ℤ × ℤ :=
  ((pyInt ((sourceW : ℚ) * ((cfg.output_width : ℚ) / (sourceW : ℚ) * cfg.quality_factor)),
    pyInt ((sourceH : ℚ) * ((cfg.output_width : ℚ) / (sourceW : ℚ) * cfg.quality_factor))),
   if pyInt ((sourceW : ℚ) * ((cfg.output_width : ℚ) / (sourceW : ℚ) * cfg.quality_factor))
        ≠ cfg.output_width then
     (pyInt ((sourceW : ℚ) * ((cfg.output_width : ℚ) / (sourceW : ℚ) * cfg.quality_factor)),
      pyInt ((windowH : ℚ) *
        ((pyInt ((sourceW : ℚ) * ((cfg.output_width : ℚ) / (sourceW : ℚ) * cfg.quality_factor)) : ℚ)
          / (cfg.output_width : ℚ))))
   else (cfg.output_width, windowH))

/-- Frame count of a hold: int(pause_duration * framerate), computed the same
way in both branches of generate_frames. -/
def pauseFramesOf (cfg : ScrollifyConfig) : ℤ :=
  pyInt (cfg.pause_duration * (cfg.framerate : ℚ))

/-- One fuel-indexed unfolding of the descent loop

    while y_position < max_y:
        y_position = min(y_position + scroll_speed, max_y)
        frames.append(crop(y_position))

returning the offsets appended after state y.  Fuel bounds the iteration
count; each iteration moves y up by at least one pixel when 0 < speed, so
fuel = maxY - y is always enough. -/
def descendAux (speed maxY : ℤ) : ℕ → ℤ → List ℤ
  | 0, _ => []
  | fuel + 1, y =>
    if 0 < speed ∧ y < maxY then
      min (y + speed) maxY :: descendAux speed maxY fuel (min (y + speed) maxY)
    else []

/-- The descent loop started at offset y. -/
def descend (speed maxY y : ℤ) : List ℤ := descendAux speed maxY (maxY - y).toNat y

/-- One fuel-indexed unfolding of the ascent loop of the down-up mode

    while y_position > 0:
        y_position = max(y_position - scroll_speed, 0)
        frames.append(crop(y_position)) -/
def ascendAux (speed : ℤ) : ℕ → ℤ → List ℤ
  | 0, _ => []
  | fuel + 1, y =>
    if 0 < speed ∧ 0 < y then
      max (y - speed) 0 :: ascendAux speed fuel (max (y - speed) 0)
    else []

/-- The ascent loop started at offset y. -/
def ascend (speed y : ℤ) : List ℤ := ascendAux speed y.toNat y

/-- Python frames[:-p] for an int p: the slice stop index is -p, so a
positive p keeps all but the last p entries, p = 0 yields the empty list
(the stop index -0 is 0), and a negative p keeps the first -p entries. -/
def pySliceDropLast (l : List α) (p : ℤ) : List α :=
  if 0 < p then l.take (l.length - p.toNat) else l.take (-p).toNat

/-- Top hold, descent and bottom hold of generate_frames, shared by the three
scroll modes. -/
def baseFrames (cfg : ScrollifyConfig) (maxY : ℤ) : List ℤ :=
  List.replicate (pauseFramesOf cfg).toNat 0
    ++ descend cfg.scroll_speed maxY 0
    ++ List.replicate (pauseFramesOf cfg).toNat maxY

/-- Embedding of ScrollifyGenerator.generate_frames over the scaled image
height and reconciled window height; a frame is the offset it is cropped at.
The ascent of the down-up mode restarts from the value of y_position after
the descent loop, i.e. the last descent offset (0 if the loop did not run);
the down-once mode re-binds frames to the slice frames[:-pause_frames]. -/
def generate_frames (cfg : ScrollifyConfig) (scaledH windowH : ℤ) : List ℤ :=
  if scaledH ≤ windowH then
    List.replicate (max (pauseFramesOf cfg) 30).toNat 0
  else if cfg.scroll_mode = "down-up" then
    baseFrames cfg (scaledH - windowH)
      ++ ascend cfg.scroll_speed
           ((descend cfg.scroll_speed (scaledH - windowH) 0).getLastD 0)
  else if cfg.scroll_mode = "down-once" then
    pySliceDropLast (baseFrames cfg (scaledH - windowH)) (pauseFramesOf cfg)
  else
    baseFrames cfg (scaledH - windowH)

/-- Python str.upper() restricted to the ASCII strings the encoder compares
against (String.toUpper is not used because its implementation does not
reduce in the kernel). -/
def pyUpper (s : String) : String := String.mk (s.data.map Char.toUpper)

/-- Python os.path.rfind of a character: largest index of an occurrence, -1
when absent. -/
def pyRfind (c : Char) (l : List Char) : ℤ :=
  (List.range l.length).foldl
    (fun acc i => if l.get? i = some c then (i : ℤ) else acc) (-1)

/-- Root part of os.path.splitext (posix): cut at the last dot when it lies
after the last slash and the basename has a non-dot character strictly
before it (so dotfiles keep their name); otherwise return the path whole. -/
def pySplitextRoot (p : String) : String :=
  if pyRfind '.' p.data > pyRfind '/' p.data ∧
      (List.range p.data.length).any (fun i =>
        decide (pyRfind '/' p.data < (i : ℤ)) &&
        decide ((i : ℤ) < pyRfind '.' p.data) &&
        decide (p.data.get? i ≠ some '.')) = true then
    String.mk (p.data.take (pyRfind '.' p.data).toNat)
  else p

/-- The fatal errors save_output can raise: the empty-frames ValueError and
the unsupported-format ValueError. -/
inductive SaveError where
  | noFrames
  | unsupportedFormat (fmt : String)
deriving DecidableEq

/-- What the encoder writes: a GIF with a per-frame duration in milliseconds
and a loop count (0 encodes infinite looping), or an MP4 at the configured
frame rate, looped unless the mode is down-once. -/
inductive SaveAction where
  | gif (path : String) (durationMs : ℤ) (loopCount : ℤ)
  | mp4 (path : String) (fps : ℤ) (looped : Bool)
deriving DecidableEq

/-- Result of save_output: a raised fatal error or a description of the file
written. -/
inductive SaveResult where
  | err (e : SaveError)
  | ok (a : SaveAction)
deriving DecidableEq

/-- GIF loop count: loop_count = 0 if scroll_mode != "down-once" else 1. -/
def gifLoopCount (cfg : ScrollifyConfig) : ℤ :=
  if cfg.scroll_mode ≠ "down-once" then 0 else 1

/-- Embedding of ScrollifyGenerator.save_output together with _save_as_gif
and _save_as_mp4.  The frames list is abstracted to its offsets; only
emptiness matters here.  moviepyAvailable models whether the moviepy import
inside _save_as_mp4 succeeds; when it fails, the handler rewrites the output
path to splitext(path)[0] + ".gif" and saves a GIF there. -/
def save_output (cfg : ScrollifyConfig) (frames : List ℤ)
    (moviepyAvailable : Bool) : SaveResult :=
  if frames = [] then .err .noFrames
  else if pyUpper cfg.output_format = "GIF" then
    .ok (.gif cfg.output_path (pyInt ((1000 : ℚ) / (cfg.framerate : ℚ)))
      (gifLoopCount cfg))
  else if pyUpper cfg.output_format = "MP4" then
    if moviepyAvailable then
      .ok (.mp4 cfg.output_path cfg.framerate (cfg.scroll_mode ≠ "down-once"))
    else
      .ok (.gif (pySplitextRoot cfg.output_path ++ ".gif")
        (pyInt ((1000 : ℚ) / (cfg.framerate : ℚ))) (gifLoopCount cfg))
  else .err (.unsupportedFormat cfg.output_format)

theorem descendAux_mem_le (speed maxY : ℤ) :
    ∀ fuel (y : ℤ), ∀ o ∈ descendAux speed maxY fuel y, o ≤ maxY := by
  intro fuel
  induction fuel with
  | zero => intro y o ho; simp [descendAux] at ho
  | succ n ih =>
    intro y o ho
    rw [descendAux] at ho
    split at ho
    · rcases List.mem_cons.mp ho with h | h
      · exact h ▸ min_le_right _ _
      · exact ih _ o h
    · simp at ho

theorem descendAux_mem_pos (speed maxY : ℤ) :
    ∀ fuel (y : ℤ), 0 ≤ y → ∀ o ∈ descendAux speed maxY fuel y, 0 < o := by
  intro fuel
  induction fuel with
  | zero => intro y _ o ho; simp [descendAux] at ho
  | succ n ih =>
    intro y hy o ho
    rw [descendAux] at ho
    split at ho
    · next hguard =>
      rcases List.mem_cons.mp ho with h | h
      · subst h; omega
      · exact ih _ (by omega) o h
    · simp at ho

theorem descendAux_getLastD (speed maxY : ℤ) (hs : 0 < speed) :
    ∀ fuel (y d : ℤ), y < maxY → (maxY - y).toNat ≤ fuel →
      (descendAux speed maxY fuel y).getLastD d = maxY := by
  intro fuel
  induction fuel with
  | zero => intro y d hy hf; omega
  | succ n ih =>
    intro y d hy hf
    rw [descendAux, if_pos ⟨hs, hy⟩]
    rw [List.getLastD_cons]
    by_cases hm : min (y + speed) maxY = maxY
    · rw [hm]
      have hempty : descendAux speed maxY n maxY = [] := by
        cases n <;> simp [descendAux]
      rw [hempty]
      rfl
    · exact ih (min (y + speed) maxY) _ (by omega) (by omega)

theorem descendAux_chain (speed maxY : ℤ) :
    ∀ fuel (y : ℤ),
      List.Chain (fun a b => b = min (a + speed) maxY) y
        (descendAux speed maxY fuel y) := by
  intro fuel
  induction fuel with
  | zero => intro y; exact List.Chain.nil
  | succ n ih =>
    intro y
    rw [descendAux]
    split
    · exact List.Chain.cons rfl (ih _)
    · exact List.Chain.nil

theorem descendAux_ne_nil (speed maxY : ℤ) (hs : 0 < speed) :
    ∀ fuel (y : ℤ), y < maxY → 0 < fuel → descendAux speed maxY fuel y ≠ [] := by
  intro fuel y hy hf
  cases fuel with
  | zero => omega
  | succ n => rw [descendAux, if_pos ⟨hs, hy⟩]; simp

theorem cons_getLast?_eq_getLastD (a : ℤ) (t : List ℤ) :
    (a :: t).getLast? = some ((a :: t).getLastD 0) := by
  rw [List.getLastD_eq_getLast?]
  cases h : (a :: t).getLast? with
  | none => simp at h
  | some b => rfl

theorem getLast?_eq_getLastD_of_ne_nil {l : List ℤ} (h : l ≠ []) :
    l.getLast? = some (l.getLastD 0) := by
  cases l with
  | nil => exact absurd rfl h
  | cons a t => exact cons_getLast?_eq_getLastD a t

theorem descend_getLast? (speed maxY : ℤ) (hs : 0 < speed) (hm : 0 < maxY) :
    (descend speed maxY 0).getLast? = some maxY := by
  have hne : descend speed maxY 0 ≠ [] := by
    apply descendAux_ne_nil speed maxY hs _ 0 hm
    omega
  rw [getLast?_eq_getLastD_of_ne_nil hne]
  rw [descend, descendAux_getLastD speed maxY hs _ 0 0 hm (by omega)]

theorem descend_getLastD (speed maxY : ℤ) (hs : 0 < speed) (hm : 0 < maxY) :
    (descend speed maxY 0).getLastD 0 = maxY :=
  descendAux_getLastD speed maxY hs _ 0 0 hm (by omega)

/-- C1: with scrollSpeed > 0 and scaledHeight > windowHeight, every offset of
the descent lies in [0, maxOffset] with maxOffset = scaledHeight −
windowHeight, consecutive offsets advance from 0 by scrollSpeed clamped to
maxOffset, and the final descent offset is exactly maxOffset, so no offset
ever exceeds maxOffset. -/
theorem descent_offsets_in_range (speed scaledH windowH : ℤ)
    (hs : 0 < speed) (hw : windowH < scaledH) :
    (∀ o ∈ descend speed (scaledH - windowH) 0, 0 ≤ o ∧ o ≤ scaledH - windowH) ∧
    List.Chain (fun a b => b = min (a + speed) (scaledH - windowH)) 0
      (descend speed (scaledH - windowH) 0) ∧
    (descend speed (scaledH - windowH) 0).getLast? = some (scaledH - windowH) := by
  refine ⟨fun o ho => ⟨?_, ?_⟩, ?_, ?_⟩
  · exact le_of_lt (descendAux_mem_pos speed _ _ 0 le_rfl o ho)
  · exact descendAux_mem_le speed _ _ 0 o ho
  · exact descendAux_chain speed _ _ 0
  · exact descend_getLast? speed _ hs (by omega)

unseal Rat.mul Rat.add Rat.sub Rat.inv in
/-- Witness for C1 at the spec's end-to-end geometry: speed 8, scaled height
3000, window height 450, maxOffset 2550 (which 8 does not divide). -/
theorem descent_offsets_in_range_witness :
    (∀ o ∈ descend 8 ((3000 : ℤ) - 450) 0, 0 ≤ o ∧ o ≤ (3000 : ℤ) - 450) ∧
    List.Chain (fun a b => b = min (a + 8) ((3000 : ℤ) - 450)) 0
      (descend 8 ((3000 : ℤ) - 450) 0) ∧
    (descend 8 ((3000 : ℤ) - 450) 0).getLast? = some ((3000 : ℤ) - 450) :=
  descent_offsets_in_range 8 3000 450 (by decide) (by decide)

theorem ascendAux_getLastD (speed : ℤ) (hs : 0 < speed) :
    ∀ fuel (y d : ℤ), 0 < y → y.toNat ≤ fuel →
      (ascendAux speed fuel y).getLastD d = 0 := by
  intro fuel
  induction fuel with
  | zero => intro y d hy hf; omega
  | succ n ih =>
    intro y d hy hf
    rw [ascendAux, if_pos ⟨hs, hy⟩, List.getLastD_cons]
    by_cases hm : max (y - speed) 0 = 0
    · rw [hm]
      have hempty : ascendAux speed n 0 = [] := by
        cases n <;> simp [ascendAux]
      rw [hempty]
      rfl
    · exact ih _ _ (by omega) (by omega)

theorem ascendAux_chain (speed : ℤ) :
    ∀ fuel (y : ℤ),
      List.Chain (fun a b => b = max (a - speed) 0) y (ascendAux speed fuel y) := by
  intro fuel
  induction fuel with
  | zero => intro y; exact List.Chain.nil
  | succ n ih =>
    intro y
    rw [ascendAux]
    split
    · exact List.Chain.cons rfl (ih _)
    · exact List.Chain.nil

theorem ascend_ne_nil (speed y : ℤ) (hs : 0 < speed) (hy : 0 < y) :
    ascend speed y ≠ [] := by
  rw [ascend]
  cases hf : y.toNat with
  | zero => omega
  | succ n => rw [ascendAux, if_pos ⟨hs, hy⟩]; simp

theorem ascend_getLast? (speed y : ℤ) (hs : 0 < speed) (hy : 0 < y) :
    (ascend speed y).getLast? = some 0 := by
  rw [getLast?_eq_getLastD_of_ne_nil (ascend_ne_nil speed y hs hy)]
  rw [ascend, ascendAux_getLastD speed hs _ y 0 hy le_rfl]

unseal Rat.mul Rat.add Rat.sub Rat.inv in
/-- C2 counterexample: with pauseDuration 2.9 s and frameRate 24, the static
path emits int(2.9·24) = 69 frames, not max(round(2.9·24), 30) = 70 as the
claim states. -/
theorem static_count_claim_false :
    (generate_frames { source_image := "x", pause_duration := 29/10 } 300 450).length
      ≠ (max (round ((29 : ℚ)/10 * 24)) 30).toNat := by decide

/-- C2 amended: when the scaled height is at most the window height the
scheduler emits exactly max(pauseFrameCount, 30) identical frames at offset
0, where pauseFrameCount = int(pauseDuration × frameRate), i.e. the product
truncated toward zero (the source truncates; it does not round). -/
theorem static_frame_count (cfg : ScrollifyConfig) (scaledH windowH : ℤ)
    (h : scaledH ≤ windowH) :
    (generate_frames cfg scaledH windowH).length
        = (max (pauseFramesOf cfg) 30).toNat ∧
    ∀ o ∈ generate_frames cfg scaledH windowH, o = 0 := by
  rw [generate_frames, if_pos h]
  exact ⟨List.length_replicate _ _, fun o ho => (List.mem_replicate.mp ho).2⟩

unseal Rat.mul Rat.add Rat.sub Rat.inv in
/-- Witness for the amended C2 at the 2.9 s / 24 fps configuration. -/
theorem static_frame_count_witness :
    (generate_frames { source_image := "x", pause_duration := 29/10 } 300 450).length
        = (max (pauseFramesOf { source_image := "x", pause_duration := 29/10 }) 30).toNat ∧
    ∀ o ∈ generate_frames { source_image := "x", pause_duration := 29/10 } 300 450,
      o = 0 :=
  static_frame_count { source_image := "x", pause_duration := 29/10 } 300 450
    (by decide)

unseal Rat.mul Rat.add Rat.sub Rat.inv in
/-- C3: the down-once mode with pauseFrameCount = 0 is a bug in the source.
frames[:-pause_frames] with pause_frames = 0 is frames[:0] = [], so instead
of retaining the 319 descent frames (319 = length of the descent for
maxOffset 2550 at speed 8) the scheduler discards the whole sequence, and
save_output then raises its no-frames error.  The claim (and the source's
own comment, which says only the final hold frames are removed) describes
the clearly intended behavior. -/
theorem down_once_zero_pause_bug :
    pauseFramesOf { source_image := "x", quality_factor := 1, scroll_mode := "down-once", pause_duration := 0 } = 0 ∧
    (descend 8 2550 0).length = 319 ∧
    generate_frames { source_image := "x", quality_factor := 1, scroll_mode := "down-once", pause_duration := 0 } 3000 450 = [] ∧
    save_output { source_image := "x", quality_factor := 1, scroll_mode := "down-once", pause_duration := 0 } [] true
      = SaveResult.err SaveError.noFrames := by
  exact ⟨by decide, by decide, by decide, by decide⟩

unseal Rat.mul Rat.add Rat.sub Rat.inv in
/-- C4: in down-up mode with positive speed and room to scroll, the frames
are top hold, descent, bottom hold, then an ascent whose offsets decrease by
scrollSpeed clamped at 0; nothing follows the ascent (no trailing pause) and
the last frame's offset is 0.  At the spec's end-to-end configuration
(source 800×3000, width 800, 16:9 window 450, quality 1, speed 8, fps 24,
pause 2 s): down mode gives 48+319+48 = 415 frames and down-up gives
415+319 = 734 frames. -/
theorem roundtrip_frames (cfg : ScrollifyConfig) (scaledH windowH : ℤ)
    (hm : cfg.scroll_mode = "down-up") (hs : 0 < cfg.scroll_speed)
    (hw : windowH < scaledH) :
    (generate_frames cfg scaledH windowH =
      List.replicate (pauseFramesOf cfg).toNat 0
        ++ descend cfg.scroll_speed (scaledH - windowH) 0
        ++ List.replicate (pauseFramesOf cfg).toNat (scaledH - windowH)
        ++ ascend cfg.scroll_speed (scaledH - windowH)) ∧
    List.Chain (fun a b => b = max (a - cfg.scroll_speed) 0) (scaledH - windowH)
      (ascend cfg.scroll_speed (scaledH - windowH)) ∧
    (generate_frames cfg scaledH windowH).getLast? = some 0 ∧
    calculate_dimensions { source_image := "ex", quality_factor := 1 } 800 3000 = 450 ∧
    preprocess { source_image := "ex", quality_factor := 1 } 800 3000 450 = ((800, 3000), 800, 450) ∧
    (generate_frames { source_image := "ex", quality_factor := 1 } 3000 450).length = 415 ∧
    (generate_frames { source_image := "ex", quality_factor := 1, scroll_mode := "down-up" } 3000 450).length = 734 := by
  have hmax : (0 : ℤ) < scaledH - windowH := by omega
  have heq : generate_frames cfg scaledH windowH =
      List.replicate (pauseFramesOf cfg).toNat 0
        ++ descend cfg.scroll_speed (scaledH - windowH) 0
        ++ List.replicate (pauseFramesOf cfg).toNat (scaledH - windowH)
        ++ ascend cfg.scroll_speed (scaledH - windowH) := by
    rw [generate_frames, if_neg (by omega), if_pos hm, baseFrames,
      descend_getLastD cfg.scroll_speed (scaledH - windowH) hs hmax]
  refine ⟨heq, ascendAux_chain _ _ _, ?_, by decide, by decide, by decide, by decide⟩
  rw [heq, List.getLast?_append, List.getLast?_append, List.getLast?_append,
    ascend_getLast? cfg.scroll_speed (scaledH - windowH) hs hmax]
  rfl

unseal Rat.mul Rat.add Rat.sub Rat.inv in
/-- Witness for C4: the end-to-end round-trip configuration really ends at
offset 0. -/
theorem roundtrip_frames_witness :
    (generate_frames { source_image := "ex", quality_factor := 1, scroll_mode := "down-up" } 3000 450).getLast? = some 0 :=
  (roundtrip_frames { source_image := "ex", quality_factor := 1, scroll_mode := "down-up" } 3000 450
    rfl (by decide) (by decide)).2.2.1

unseal Rat.mul Rat.add Rat.sub Rat.inv in
/-- C5 counterexample: for targetWidth 100 and the valid token 3:2 the
resolver returns int(100·2/3) = 66, not round(100·2/3) = 67 as the claim
states. -/
theorem token_height_claim_false :
    calculate_dimensions { source_image := "x", aspect_ratio := "3:2", output_width := 100 } 800 600
      ≠ round ((100 : ℚ) * 2 / 3) := by decide

/-- C5 amended: on a valid w:h token (two Python-parseable integers around a
colon, w positive) the resolver returns int(W·h/w), i.e. truncation toward
zero rather than round; on a token that fails to parse (outside the source
and custom-with-height modes) it returns the 16:9 default int(W·9/16), and
no exception escapes (the embedding is a total function). -/
theorem token_height (cfg : ScrollifyConfig) (sourceW sourceH : ℤ) :
    (∀ w h : ℤ, 0 < w → parseRatioToken cfg.aspect_ratio = some (w, h) →
      calculate_dimensions cfg sourceW sourceH
        = pyInt ((cfg.output_width : ℚ) * (h : ℚ) / (w : ℚ))) ∧
    (parseRatioToken cfg.aspect_ratio = none →
      ¬(cfg.aspect_ratio = "custom" ∧ pyTruthyHeight cfg.output_height = true) →
      cfg.aspect_ratio ≠ "source" →
      calculate_dimensions cfg sourceW sourceH
        = pyInt ((cfg.output_width : ℚ) * 9 / 16)) := by
  constructor
  · intro w h hw hp
    have hsrc : cfg.aspect_ratio ≠ "source" := by
      intro he
      rw [he] at hp
      have hnone : parseRatioToken "source" = none := by decide
      rw [hnone] at hp
      exact Option.noConfusion hp
    have hcust : ¬(cfg.aspect_ratio = "custom" ∧ pyTruthyHeight cfg.output_height = true) := by
      rintro ⟨he, -⟩
      rw [he] at hp
      have hnone : parseRatioToken "custom" = none := by decide
      rw [hnone] at hp
      exact Option.noConfusion hp
    rw [calculate_dimensions, if_neg hsrc, if_neg hcust]
    simp only [hp]
    rw [if_neg (by omega)]
  · intro hp hcust hsrc
    rw [calculate_dimensions, if_neg hsrc, if_neg hcust, hp]

unseal Rat.mul Rat.add Rat.sub Rat.inv in
/-- Witness for the amended C5: token 4:3 at width 800 gives height 600, and
the malformed token of the default-path is exercised at "not-a-ratio". -/
theorem token_height_witness :
    calculate_dimensions { source_image := "x", aspect_ratio := "4:3" } 640 480 = 600 ∧
    calculate_dimensions { source_image := "x", aspect_ratio := "not-a-ratio" } 640 480 = 450 := by
  constructor
  · have h := (token_height { source_image := "x", aspect_ratio := "4:3" } 640 480).1
      4 3 (by decide) (by decide)
    rw [h]
    decide
  · have h := (token_height { source_image := "x", aspect_ratio := "not-a-ratio" } 640 480).2
      (by decide) (by decide) (by decide)
    rw [h]
    decide

unseal Rat.mul Rat.add Rat.sub Rat.inv in
/-- C6 counterexample: source 800×3000 resampled to width 801 at quality 1
gets scaled height int(3000·(801/800·1)) = 3003, not round(3003.75) = 3004
as the claim states. -/
theorem preprocess_claim_false :
    (preprocess { source_image := "x", output_width := 801, quality_factor := 1 } 800 3000 450).1.2
      ≠ round ((3000 : ℚ) * ((801 : ℚ) / 800 * 1)) := by decide

/-- C6 amended: the preprocessor resamples to newWidth = int(sourceWidth ×
scale) and newHeight = int(sourceHeight × scale) with scale = (targetWidth /
sourceWidth) × qualityFactor — truncation toward zero, not round — so
newWidth = int(targetWidth × qualityFactor); the effective output width
always becomes newWidth, and the window height is rescaled by (newWidth /
targetWidth) exactly when newWidth differs from targetWidth, once, before
any frame is extracted (generate_frames consumes these outputs). -/
theorem preprocess_scaling (cfg : ScrollifyConfig) (sourceW sourceH windowH : ℤ)
    (hsw : sourceW ≠ 0) :
    (preprocess cfg sourceW sourceH windowH).1.1
        = pyInt ((sourceW : ℚ) * ((cfg.output_width : ℚ) / (sourceW : ℚ) * cfg.quality_factor)) ∧
    (preprocess cfg sourceW sourceH windowH).1.1
        = pyInt ((cfg.output_width : ℚ) * cfg.quality_factor) ∧
    (preprocess cfg sourceW sourceH windowH).1.2
        = pyInt ((sourceH : ℚ) * ((cfg.output_width : ℚ) / (sourceW : ℚ) * cfg.quality_factor)) ∧
    (preprocess cfg sourceW sourceH windowH).2.1
        = (preprocess cfg sourceW sourceH windowH).1.1 ∧
    ((preprocess cfg sourceW sourceH windowH).1.1 = cfg.output_width →
      (preprocess cfg sourceW sourceH windowH).2.2 = windowH) ∧
    ((preprocess cfg sourceW sourceH windowH).1.1 ≠ cfg.output_width →
      (preprocess cfg sourceW sourceH windowH).2.2
        = pyInt ((windowH : ℚ) *
            (((preprocess cfg sourceW sourceH windowH).1.1 : ℚ) / (cfg.output_width : ℚ)))) := by
  have hs : (sourceW : ℚ) ≠ 0 := Int.cast_ne_zero.mpr hsw
  have hrw : (sourceW : ℚ) * ((cfg.output_width : ℚ) / (sourceW : ℚ) * cfg.quality_factor)
      = (cfg.output_width : ℚ) * cfg.quality_factor := by
    field_simp
  refine ⟨rfl, ?_, rfl, ?_, ?_, ?_⟩
  · show pyInt ((sourceW : ℚ) * ((cfg.output_width : ℚ) / (sourceW : ℚ) * cfg.quality_factor))
      = pyInt ((cfg.output_width : ℚ) * cfg.quality_factor)
    rw [hrw]
  · by_cases hc : pyInt ((sourceW : ℚ) * ((cfg.output_width : ℚ) / (sourceW : ℚ) * cfg.quality_factor))
        = cfg.output_width
    · simp [preprocess, hc]
    · simp [preprocess, hc]
  · intro h
    simp only [preprocess] at h ⊢
    simp [h]
  · intro h
    simp only [preprocess] at h ⊢
    simp [h]

unseal Rat.mul Rat.add Rat.sub Rat.inv in
/-- Witness for the amended C6 at quality 1/2: scaled width 400, and the
window height 450 is rescaled to int(450·400/800) = 225. -/
theorem preprocess_scaling_witness :
    (preprocess { source_image := "x", quality_factor := 1/2 } 800 3000 450).1.1 = 400 ∧
    (preprocess { source_image := "x", quality_factor := 1/2 } 800 3000 450).2.2 = 225 := by
  have h := preprocess_scaling { source_image := "x", quality_factor := 1/2 } 800 3000 450
    (by decide)
  constructor
  · rw [h.2.1]
    decide
  · rw [h.2.2.2.2.2 (by decide)]
    decide

unseal Rat.mul Rat.add Rat.sub Rat.inv in
/-- C7 counterexample: at the default 24 fps the GIF frame duration written
is int(1000/24) = 41 ms, not round(1000/24) = 42 ms as the claim states. -/
theorem gif_duration_claim_false :
    save_output { source_image := "x" } [0] true
      ≠ SaveResult.ok (SaveAction.gif "output_scroll.gif" (round ((1000 : ℚ) / 24)) 0) := by
  decide

/-- C7 amended: on the GIF path every frame's display duration is
int(1000/frameRate) milliseconds — truncation toward zero, not round — and
the loop count is 0 (infinite) unless the scroll mode is down-once, in which
case it is 1 (play once). -/
theorem gif_save_parameters (cfg : ScrollifyConfig) (frames : List ℤ) (mv : Bool)
    (hne : frames ≠ []) (hgif : pyUpper cfg.output_format = "GIF") :
    save_output cfg frames mv
      = SaveResult.ok (SaveAction.gif cfg.output_path
          (pyInt ((1000 : ℚ) / (cfg.framerate : ℚ)))
          (if cfg.scroll_mode ≠ "down-once" then 0 else 1)) := by
  rw [save_output, if_neg hne, if_pos hgif]
  rfl

unseal Rat.mul Rat.add Rat.sub Rat.inv in
/-- Witness for the amended C7: single-pass mode writes duration 41 ms and
loop count 1. -/
theorem gif_save_parameters_witness :
    save_output { source_image := "x", scroll_mode := "down-once" } [0] true
      = SaveResult.ok (SaveAction.gif "output_scroll.gif" 41 1) := by
  have h := gif_save_parameters { source_image := "x", scroll_mode := "down-once" } [0] true
    (by decide) (by decide)
  rw [h]
  decide

/-- C8: save_output raises the no-frames ValueError exactly when the frame
sequence is empty — that check is the first thing it does, before any
format dispatch or write — and with a non-empty sequence a format that is
(case-insensitively) neither GIF nor MP4 raises the unsupported-format
ValueError before any encoding is attempted (the embedding returns the
error instead of a written file). -/
theorem save_guard_errors (cfg : ScrollifyConfig) (frames : List ℤ) (mv : Bool) :
    (save_output cfg frames mv = SaveResult.err SaveError.noFrames ↔ frames = []) ∧
    (frames ≠ [] → pyUpper cfg.output_format ≠ "GIF" → pyUpper cfg.output_format ≠ "MP4" →
      save_output cfg frames mv
        = SaveResult.err (SaveError.unsupportedFormat cfg.output_format)) := by
  constructor
  · constructor
    · intro h
      by_contra hne
      rw [save_output, if_neg hne] at h
      split at h
      · exact SaveResult.noConfusion h
      · split at h
        · split at h
          · exact SaveResult.noConfusion h
          · exact SaveResult.noConfusion h
        · simp at h
    · intro h
      rw [save_output, if_pos h]
  · intro hne h1 h2
    rw [save_output, if_neg hne, if_neg h1, if_neg h2]

/-- Witness for C8: requesting format "png" with one frame fails with the
unsupported-format error, and the no-frames error characterization holds at
that configuration. -/
theorem save_guard_errors_witness :
    save_output { source_image := "x", output_format := "png" } [0] true
      = SaveResult.err (SaveError.unsupportedFormat "png") :=
  (save_guard_errors { source_image := "x", output_format := "png" } [0] true).2
    (by decide) (by decide) (by decide)

/-- C9: when MP4 output is requested but moviepy is unavailable, save_output
does not fail: it writes a GIF at the configured output path with its
extension rewritten to .gif (splitext root + ".gif"), using the same
duration and loop parameters as the GIF path. -/
theorem mp4_fallback (cfg : ScrollifyConfig) (frames : List ℤ)
    (hne : frames ≠ []) (hmp4 : pyUpper cfg.output_format = "MP4") :
    save_output cfg frames false
      = SaveResult.ok (SaveAction.gif (pySplitextRoot cfg.output_path ++ ".gif")
          (pyInt ((1000 : ℚ) / (cfg.framerate : ℚ))) (gifLoopCount cfg)) := by
  have hgif : pyUpper cfg.output_format ≠ "GIF" := by
    rw [hmp4]
    decide
  rw [save_output, if_neg hne, if_neg hgif, if_pos hmp4]
  rfl

unseal Rat.mul Rat.add Rat.sub Rat.inv in
/-- Witness for C9: output_scroll.mp4 is rewritten to output_scroll.gif and
a GIF (duration 41 ms, infinite loop) is written there. -/
theorem mp4_fallback_witness :
    save_output { source_image := "x", output_format := "MP4", output_path := "output_scroll.mp4" } [0] false
      = SaveResult.ok (SaveAction.gif "output_scroll.gif" 41 0) := by
  have h := mp4_fallback { source_image := "x", output_format := "MP4", output_path := "output_scroll.mp4" } [0]
    (by decide) (by decide)
  rw [h]
  decide

/-- C10: with aspect mode "custom" but no explicit output height, the
resolver does not fail or report the violated configuration invariant: the
custom branch's truthiness test fails, the literal string "custom" is fed to
token parsing, which fails, and the 16:9 default int(W·9/16) is silently
returned. -/
theorem custom_without_height_defaults (cfg : ScrollifyConfig) (sourceW sourceH : ℤ)
    (hc : cfg.aspect_ratio = "custom") (hh : cfg.output_height = none) :
    calculate_dimensions cfg sourceW sourceH
      = pyInt ((cfg.output_width : ℚ) * 9 / 16) := by
  rw [calculate_dimensions, hc, hh]
  rw [if_neg (by decide)]
  rw [if_neg (by decide)]
  have hnone : parseRatioToken "custom" = none := by decide
  rw [hnone]

unseal Rat.mul Rat.add Rat.sub Rat.inv in
/-- Witness for C10: width 800, mode custom, height None gives the 16:9
default 450. -/
theorem custom_without_height_defaults_witness :
    calculate_dimensions { source_image := "x", aspect_ratio := "custom" } 640 480 = 450 := by
  have h := custom_without_height_defaults { source_image := "x", aspect_ratio := "custom" } 640 480
    rfl rfl
  rw [h]
  decide
